import Mathlib

/-!
Shallow embedding of the long-running-operation (LRO) polling protocol of the
MailStore API wrapper (`mailstore/server.py`, and its verbatim copy in
`mailstore/spe.py`).

The embedded functions mirror, line by line:
  * `Client.__hasToken`      (server.py lines 91-98)    → `hasToken`
  * `Client.__handleToken`   (server.py lines 101-122)  → `handleToken` / `handleTokenLoop`
  * `Client.__callMethod`    (server.py lines 125-171)  → `callMethod` (and the
    argument marshalling on line 132 → `marshalArguments`)
  * `Client.GetStatus`       (server.py lines 178-191)  → `GetStatus`
  * `Client.CancelAsync`     (server.py lines 193-199)  → `CancelAsync`

Python-level behaviour that the source relies on is made explicit:
  * dictionary lookups `d[k]` raise `KeyError` when the key is absent
    (`getItem`);
  * string concatenation `"..." + v` raises `TypeError` unless `v` is a `str`
    (`strOfConcat`); the source builds its log-message strings *before* the
    log-level test inside `__logprint`, so these exceptions fire at every
    log level;
  * `str(v)` never fails (`pyStr`, with Python `repr` formatting for nested
    containers);
  * truthiness (`if arguments[key]`, `waitTime if waitTime else ...`) treats
    `None`, `False`, `0`, `""` and empty collections as false (`PyVal.truthy`,
    `effectiveWaitTime`).

Side effects are tracked in a `Trace`: the list of wire calls handed to
`urllib.request.urlopen` and the list of responses passed to the progress
callback `self.callbackStatus`.  The HTTP layer is an oracle
`transport : Nat → Except TransportFailure JSON` giving the response of the
n-th wire call of the run; `while` loops receive explicit fuel.
-/

namespace Mailstore

/-- Python values as they appear in argument dictionaries handed to
`__callMethod` (`None`, booleans, integers, strings, lists, dicts). -/
inductive PyVal where
  | none
  | bool (b : Bool)
  | int (n : Int)
  | str (s : String)
  | list (xs : List PyVal)
  | dict (fields : List (String × PyVal))

/-- Python truthiness of a value: `None`, `False`, `0`, `""` and empty
collections are falsy, everything else is truthy.  This is the test applied
by `if arguments[key]` on line 132 of `__callMethod`. -/
def PyVal.truthy : PyVal → Bool
  | .none => false
  | .bool b => b
  | .int n => n != 0
  | .str s => !s.isEmpty
  | .list xs => !xs.isEmpty
  | .dict fields => !fields.isEmpty

/-- Decoded JSON values, the result of `json.loads` on a server response. -/
inductive JSON where
  | null
  | bool (b : Bool)
  | num (n : Int)
  | str (s : String)
  | arr (elems : List JSON)
  | obj (fields : List (String × JSON))

mutual

/-- View of a decoded JSON value as the Python object it decodes to. -/
def JSON.toPy : JSON → PyVal
  | .null => .none
  | .bool b => .bool b
  | .num n => .int n
  | .str s => .str s
  | .arr elems => .list (JSON.toPyList elems)
  | .obj fields => .dict (JSON.toPyFields fields)

/-- Elementwise view of a decoded JSON array as Python objects. -/
def JSON.toPyList : List JSON → List PyVal
  | [] => []
  | j :: rest => JSON.toPy j :: JSON.toPyList rest

/-- Entrywise view of a decoded JSON dict as Python objects. -/
def JSON.toPyFields : List (String × JSON) → List (String × PyVal)
  | [] => []
  | f :: rest => (f.1, JSON.toPy f.2) :: JSON.toPyFields rest

end

/-- Python membership test `k in d` on a decoded JSON dict; `false` on
non-dict values (the source only applies it to decoded response objects). -/
def JSON.hasKey : JSON → String → Bool
  | .obj fields, k => fields.any (fun f => f.1 == k)
  | _, _ => false

/-- Dictionary lookup `d[k]` with a default of `null`; used only where the
source has already established `k in d`. -/
def JSON.getD : JSON → String → JSON
  | .obj fields, k =>
      match fields.find? (fun f => f.1 == k) with
      | some f => f.2
      | Option.none => .null
  | _, _ => .null

/-- Python equality `v == "s"` between a decoded value and a string literal:
true exactly when `v` is that string (Python `==` between a non-string and a
string is `False`, never an error). -/
def JSON.eqStr : JSON → String → Bool
  | .str t, s => t == s
  | _, _ => false

/-- Exceptions that the embedded code can raise. -/
inductive PyErr where
  | keyError (key : String)
  | typeError
  | noToken (response : JSON)
  | httpError (code : Nat)
  | baseError

/-- Failures of the HTTP layer (`urllib.request.urlopen`): an HTTP error
response, or any other exception. -/
inductive TransportFailure where
  | httpError (code : Nat)
  | other

/-- Dictionary lookup `d[k]`, raising `KeyError` when the key is absent and
`TypeError` when the value is not a dict at all. -/
def getItem (j : JSON) (k : String) : Except PyErr JSON :=
  match j with
  | .obj fields =>
      match fields.find? (fun f => f.1 == k) with
      | some f => Except.ok f.2
      | Option.none => Except.error (.keyError k)
  | _ => Except.error .typeError

/-- String concatenation `"..." + v` in Python: succeeds only when `v` is a
`str`, raising `TypeError` otherwise.  The source concatenates
`jsonValues["token"]` into log messages in `__hasToken` (line 94) and
`__handleToken` (lines 112 and 121). -/
def strOfConcat (j : JSON) : Except PyErr String :=
  match j with
  | .str s => Except.ok s
  | _ => Except.error .typeError

/-- Helper joining rendered items with a comma, as Python container repr does. -/
def joinComma (xs : List String) : String := String.intercalate ", " xs

mutual

/-- Python `repr` of a decoded JSON value. -/
def pyRepr : JSON → String
  | .null => "None"
  | .bool true => "True"
  | .bool false => "False"
  | .num n => toString n
  | .str s => "'" ++ s ++ "'"
  | .arr elems => "[" ++ joinComma (pyReprList elems) ++ "]"
  | .obj fields => "\x7b" ++ joinComma (pyReprFields fields) ++ "\x7d"

/-- Python `repr` of each element of a decoded JSON array. -/
def pyReprList : List JSON → List String
  | [] => []
  | j :: rest => pyRepr j :: pyReprList rest

/-- Python `repr` of each `key: value` entry of a decoded JSON dict. -/
def pyReprFields : List (String × JSON) → List String
  | [] => []
  | f :: rest => ("'" ++ f.1 ++ "': " ++ pyRepr f.2) :: pyReprFields rest

end

/-- Python `str(v)`: the string itself for strings, `repr` otherwise.  Used
for `str(jsonValues["statusVersion"])` on line 186 of `GetStatus`. -/
def pyStr : JSON → String
  | .str s => s
  | j => pyRepr j

/-- Client configuration, the fields of `Client.__init__` that the LRO
controller reads: the `autoHandleToken` default, the default `waitTime`
(milliseconds), whether `callable(self.callbackStatus)` holds, and the
configured `logLevel` (which never influences the controller's outcome,
because log-message strings are built before the level test). -/
structure Config where
  autoHandleToken : Bool
  waitTime : Int
  hasCallback : Bool
  logLevel : Int

/-- Wire call handed to `urllib.request.urlopen` by `__callMethod`: the API
method name, the URL mode segment, and the arguments dictionary (as passed;
the transmitted form body is `marshalArguments` of it). -/
structure WireCall where
  method : String
  mode : String
  args : List (String × PyVal)

/-- Observable side effects of a run: the wire calls issued, in order, and
the responses passed to the progress callback, in order. -/
structure Trace where
  calls : List WireCall
  cbs : List JSON

/-- Outcome of an embedded computation: a returned value, a raised
exception, or exhausted fuel for the unbounded `while` loop.  The trace of
side effects produced so far is kept in every case. -/
inductive Res (α : Type) where
  | ok (a : α) (t : Trace)
  | err (e : PyErr) (t : Trace)
  | fuelOut (t : Trace)

/-- Trace of side effects carried by an outcome. -/
def Res.trace {α : Type} : Res α → Trace
  | .ok _ t => t
  | .err _ t => t
  | .fuelOut t => t

/-- Dictionary lookup used while iterating a dict's own keys (always hits). -/
def dictGet (args : List (String × PyVal)) (k : String) : PyVal :=
  match args.find? (fun kv => kv.1 == k) with
  | some kv => kv.2
  | Option.none => .none

/-- Embedding of server.py line 132, the form-body construction
`[(key, arguments[key]) for key in list(arguments) if arguments[key]]`:
iterate the dictionary's keys in order and keep exactly the pairs whose
value is truthy. -/
def marshalArguments (args : List (String × PyVal)) : List (String × PyVal) :=
  (args.map (fun kv => kv.1)).filterMap
    (fun k => if (dictGet args k).truthy then some (k, dictGet args k) else Option.none)

/-- Embedding of spe.py line 132, character-identical to server.py line 132. -/
def speMarshalArguments (args : List (String × PyVal)) : List (String × PyVal) :=
  (args.map (fun kv => kv.1)).filterMap
    (fun k => if (dictGet args k).truthy then some (k, dictGet args k) else Option.none)

/-- Embedding of `Client.__hasToken` (server.py lines 91-98).  The guard is
`"token" in jsonValues and jsonValues["token"] is not None and
"statusVersion" in jsonValues`.  When it holds, the source builds the log
message `"__hasToken: Status token " + jsonValues["token"] + " detected.
statusVersion is " + str(jsonValues["statusVersion"])` before calling
`__logprint`, so a non-string token raises `TypeError` here at every log
level; otherwise the method returns `True`.  When the guard fails the log
message is a constant and the method returns `False`. -/
def hasToken (j : JSON) : Except PyErr Bool :=
  if j.hasKey "token" && !(j.getD "token" matches .null) && j.hasKey "statusVersion" then
    match strOfConcat (j.getD "token") with
    | Except.ok _ => Except.ok true
    | Except.error e => Except.error e
  else
    Except.ok false

/-- Embedding of `Client.__callMethod` (server.py lines 125-171) as called
with `autoHandleToken=False` (as `GetStatus` does on line 187): record the
wire call, consult the transport oracle — an `HTTPError` is re-raised, any
other exception is wrapped in `MailStoreBaseError` (lines 142-148) — then
run `__hasToken` on the decoded response (line 158; its possible `TypeError`
still fires) and return the response unchanged, since with the flag false
both branches yield `returnData = jsonValues`. -/
def callMethodNoAuto (cfg : Config) (transport : Nat → Except TransportFailure JSON)
    (method : String) (arguments : List (String × PyVal)) (mode : String)
    (t : Trace) : Res JSON :=
  let t1 : Trace := { t with calls := t.calls ++ [⟨method, mode, arguments⟩] }
  match transport t.calls.length with
  | Except.error (.httpError code) => .err (.httpError code) t1
  | Except.error .other => .err .baseError t1
  | Except.ok jsonValues =>
      match hasToken jsonValues with
      | Except.error e => .err e t1
      | Except.ok _ => .ok jsonValues t1

/-- Embedding of server.py line 183, `waitTime = waitTime if waitTime else
self.waitTime`: Python truthiness, so both `None` and an explicit `0` fall
back to the configured default. -/
def effectiveWaitTime (waitTime : Option Int) (cfg : Config) : Int :=
  match waitTime with
  | some v => if v = 0 then cfg.waitTime else v
  | Option.none => cfg.waitTime

/-- Embedding of `Client.GetStatus` (server.py lines 178-191): resolve the
wait time by truthiness (line 183), re-run the token presence check, and on
success issue the single `get-status` wire call with arguments
`token`, `millisecondsTimeout` and `lastKnownStatusVersion =
str(jsonValues["statusVersion"])`, mode `""` and `autoHandleToken=False`;
otherwise raise `MailStoreNoTokenError(jsonValues)`. -/
def GetStatus (cfg : Config) (transport : Nat → Except TransportFailure JSON)
    (jsonValues : JSON) (waitTime : Option Int) (t : Trace) : Res JSON :=
  let w := effectiveWaitTime waitTime cfg
  match hasToken jsonValues with
  | Except.error e => .err e t
  | Except.ok true =>
      callMethodNoAuto cfg transport "get-status"
        [("token", (jsonValues.getD "token").toPy),
         ("millisecondsTimeout", .int w),
         ("lastKnownStatusVersion", .str (pyStr (jsonValues.getD "statusVersion")))]
        "" t
  | Except.ok false => .err (.noToken jsonValues) t

/-- Progress-callback invocation `self.callbackStatus(jsonValues)` guarded by
`callable(self.callbackStatus)` (server.py lines 107-109 and 117-119):
record the response in the trace when a callback is configured. -/
def pushCb (cfg : Config) (j : JSON) (t : Trace) : Trace :=
  if cfg.hasCallback then { t with cbs := t.cbs ++ [j] } else t

/-- Embedding of the `while` loop of `Client.__handleToken` (server.py lines
111-122).  Each iteration: read `jsonValues["statusCode"]` (a `KeyError`
when absent propagates), compare it to `"running"`; while running, build the
log message embedding `jsonValues["token"]` (line 112 — `KeyError` or
`TypeError` fires before any network call), call `GetStatus` with the
resolved wait time, then invoke the callback on the refreshed response.
On a non-`"running"` code, line 121 builds the final log message embedding
`jsonValues["token"]` before the response is returned. -/
def handleTokenLoop (cfg : Config) (transport : Nat → Except TransportFailure JSON) :
    Nat → Int → JSON → Trace → Res JSON
  | fuel, w, jsonValues, t =>
    match getItem jsonValues "statusCode" with
    | Except.error e => .err e t
    | Except.ok sc =>
      if sc.eqStr "running" then
        match getItem jsonValues "token" with
        | Except.error e => .err e t
        | Except.ok tok =>
          match strOfConcat tok with
          | Except.error e => .err e t
          | Except.ok _ =>
            match fuel with
            | 0 => .fuelOut t
            | fuel' + 1 =>
              match GetStatus cfg transport jsonValues (some w) t with
              | .err e t' => .err e t'
              | .fuelOut t' => .fuelOut t'
              | .ok refreshed t' =>
                handleTokenLoop cfg transport fuel' w refreshed (pushCb cfg refreshed t')
      else
        match getItem jsonValues "token" with
        | Except.error e => .err e t
        | Except.ok tok =>
          match strOfConcat tok with
          | Except.error e => .err e t
          | Except.ok _ => .ok jsonValues t

/-- Embedding of `Client.__handleToken` (server.py lines 101-122): resolve
the wait time with an `is not None` test (line 104), invoke the progress
callback once with the initial response (lines 107-109), then run the poll
loop. -/
def handleToken (cfg : Config) (transport : Nat → Except TransportFailure JSON)
    (fuel : Nat) (jsonValues : JSON) (waitTime : Option Int) (t : Trace) : Res JSON :=
  let w := waitTime.getD cfg.waitTime
  handleTokenLoop cfg transport fuel w jsonValues (pushCb cfg jsonValues t)

/-- Embedding of `Client.__callMethod` (server.py lines 125-171) in full:
resolve the effective `autoHandleToken` flag with an `is not None` test
(line 129), record the wire call and consult the transport oracle
(lines 131-148), then dispatch on `__hasToken` (lines 158-166): a trackable
response is handed to `__handleToken` (with no explicit wait time) when the
effective flag is true, and returned unchanged otherwise; a non-trackable
response is returned unchanged. -/
def callMethod (cfg : Config) (transport : Nat → Except TransportFailure JSON)
    (fuel : Nat) (method : String) (arguments : List (String × PyVal)) (mode : String)
    (autoHandleToken : Option Bool) (t : Trace) : Res JSON :=
  let a := autoHandleToken.getD cfg.autoHandleToken
  let t1 : Trace := { t with calls := t.calls ++ [⟨method, mode, arguments⟩] }
  match transport t.calls.length with
  | Except.error (.httpError code) => .err (.httpError code) t1
  | Except.error .other => .err .baseError t1
  | Except.ok jsonValues =>
      match hasToken jsonValues with
      | Except.error e => .err e t1
      | Except.ok true =>
          if a then handleToken cfg transport fuel jsonValues Option.none t1
          else .ok jsonValues t1
      | Except.ok false => .ok jsonValues t1

/-- Embedding of `Client.CancelAsync` (server.py lines 193-199): re-run the
token presence check; on success issue the `cancel-async` wire call with the
single `token` argument, mode `""` and the *default* `autoHandleToken`
(no override is passed on line 196); otherwise raise
`MailStoreNoTokenError(jsonValues)`. -/
def CancelAsync (cfg : Config) (transport : Nat → Except TransportFailure JSON)
    (fuel : Nat) (jsonValues : JSON) (t : Trace) : Res JSON :=
  match hasToken jsonValues with
  | Except.error e => .err e t
  | Except.ok true =>
      callMethod cfg transport fuel "cancel-async"
        [("token", (jsonValues.getD "token").toPy)] "" Option.none t
  | Except.ok false => .err (.noToken jsonValues) t

/-- Justification of the `GetStatus` factoring: `__callMethod` invoked with
an explicit `autoHandleToken=False` behaves exactly as `callMethodNoAuto`,
for any fuel — the `__handleToken` branch is unreachable. -/
theorem callMethod_autoFalse (cfg : Config) (transport : Nat → Except TransportFailure JSON)
    (fuel : Nat) (method : String) (arguments : List (String × PyVal)) (mode : String)
    (t : Trace) :
    callMethod cfg transport fuel method arguments mode (some false) t =
      callMethodNoAuto cfg transport method arguments mode t := by
  unfold callMethod callMethodNoAuto
  cases transport t.calls.length with
  | error f => cases f <;> rfl
  | ok jsonValues =>
    simp only [Option.getD]
    cases hasToken jsonValues with
    | error e => rfl
    | ok b => cases b <;> rfl

/-! Concrete task responses and transports used by the scenario theorems. -/

/-- Scenario configuration: automatic handling on, default wait time 1000 ms,
a progress callback configured, default log level. -/
def scenCfg : Config := ⟨true, 1000, true, 2⟩

/-- Initial response of the §8 scenario:
`\x7bstatusCode: "running", token: "T1", statusVersion: 1\x7d`. -/
def scenInitial : JSON :=
  .obj [("statusCode", .str "running"), ("token", .str "T1"), ("statusVersion", .num 1)]

/-- First refresh of the §8 scenario:
`\x7bstatusCode: "running", token: "T1", statusVersion: 2\x7d`. -/
def scenRefresh : JSON :=
  .obj [("statusCode", .str "running"), ("token", .str "T1"), ("statusVersion", .num 2)]

/-- Terminal response of the §8 scenario:
`\x7bstatusCode: "completed", token: "T1", statusVersion: 3,
result: \x7bid: 42\x7d\x7d`. -/
def scenFinal : JSON :=
  .obj [("statusCode", .str "completed"), ("token", .str "T1"), ("statusVersion", .num 3),
        ("result", .obj [("id", .num 42)])]

/-- Transport oracle of the §8 scenario: the first wire call returns the
`running`/version-2 refresh, the second the `completed`/version-3 response. -/
def scenTransport : Nat → Except TransportFailure JSON :=
  fun n => if n = 0 then Except.ok scenRefresh else Except.ok scenFinal

/-- Expected `get-status` wire call carrying `lastKnownStatusVersion` `v`. -/
def scenCall (v : String) : WireCall :=
  ⟨"get-status", "",
   [("token", .str "T1"), ("millisecondsTimeout", .int 1000),
    ("lastKnownStatusVersion", .str v)]⟩

end Mailstore

namespace Mailstore

/-! Claim theorems. -/

/-- C1: started on the initial response `\x7brunning, T1, version 1\x7d` with
refreshes returning `\x7brunning, T1, version 2\x7d` then
`\x7bcompleted, T1, version 3, result \x7bid: 42\x7d\x7d`, the automatic
token handler invokes the progress callback exactly three times with the
version-1, version-2 and version-3 responses in that order (once before the
first refresh, then once after each refresh), issues exactly the two
`get-status` wire calls (none after the `completed` response is observed),
and returns the completed response, whose `result.id` is 42. -/
theorem handleToken_scenario :
    handleToken scenCfg scenTransport 5 scenInitial Option.none ⟨[], []⟩ =
      .ok scenFinal ⟨[scenCall "1", scenCall "2"], [scenInitial, scenRefresh, scenFinal]⟩ ∧
    (scenFinal.getD "result").getD "id" = JSON.num 42 ∧
    [scenCall "1", scenCall "2"].length = 2 ∧
    ((scenCall "1").method = "get-status" ∧ (scenCall "2").method = "get-status") ∧
    (scenInitial.getD "statusVersion" = JSON.num 1 ∧
     scenRefresh.getD "statusVersion" = JSON.num 2 ∧
     scenFinal.getD "statusVersion" = JSON.num 3) :=
  ⟨rfl, rfl, rfl, ⟨rfl, rfl⟩, rfl, rfl, rfl⟩

/-- C2: for every decoded Transport response and every effective
`autoHandleToken` flag (the per-call override when one is given, else the
client default), the top-level operation call `__callMethod` returns the
decoded response unchanged when the token presence check fails; returns it
unchanged, token intact, when the check passes but the effective flag is
false, regardless of its `statusCode`; and runs the poll-loop driver
`__handleToken` on it, returning that driver's terminal result, when the
check passes and the effective flag is true. -/
theorem callMethod_dispatch (cfg : Config) (transport : Nat → Except TransportFailure JSON)
    (fuel : Nat) (method : String) (args : List (String × PyVal)) (mode : String)
    (auto : Option Bool) (t : Trace) (response : JSON)
    (hresp : transport t.calls.length = Except.ok response) :
    (hasToken response = Except.ok false →
      callMethod cfg transport fuel method args mode auto t =
        .ok response { t with calls := t.calls ++ [⟨method, mode, args⟩] }) ∧
    (hasToken response = Except.ok true → auto.getD cfg.autoHandleToken = false →
      callMethod cfg transport fuel method args mode auto t =
        .ok response { t with calls := t.calls ++ [⟨method, mode, args⟩] }) ∧
    (hasToken response = Except.ok true → auto.getD cfg.autoHandleToken = true →
      callMethod cfg transport fuel method args mode auto t =
        handleToken cfg transport fuel response Option.none
          { t with calls := t.calls ++ [⟨method, mode, args⟩] }) := by
  refine ⟨fun h => ?_, fun h ha => ?_, fun h ha => ?_⟩
  · simp [callMethod, hresp, h]
  · simp [callMethod, hresp, h, ha]
  · simp [callMethod, hresp, h, ha]

/-- C2 witness: a concrete run of each of the three dispatch branches. -/
theorem callMethod_dispatch_witness :
    callMethod scenCfg (fun _ => Except.ok (JSON.obj [])) 5 "GetServerInfo" [] "invoke"
        Option.none ⟨[], []⟩ =
      .ok (JSON.obj []) ⟨[⟨"GetServerInfo", "invoke", []⟩], []⟩ ∧
    callMethod scenCfg (fun _ => Except.ok scenInitial) 5 "RenewMasterKey" [] "invoke"
        (some false) ⟨[], []⟩ =
      .ok scenInitial ⟨[⟨"RenewMasterKey", "invoke", []⟩], []⟩ ∧
    callMethod scenCfg (fun _ => Except.ok scenFinal) 5 "RebuildStoreIndex" [] "invoke"
        (some true) ⟨[], []⟩ =
      handleToken scenCfg (fun _ => Except.ok scenFinal) 5 scenFinal Option.none
        ⟨[⟨"RebuildStoreIndex", "invoke", []⟩], []⟩ :=
  ⟨(callMethod_dispatch scenCfg (fun _ => Except.ok (JSON.obj [])) 5 "GetServerInfo" [] "invoke"
      Option.none ⟨[], []⟩ (JSON.obj []) rfl).1 rfl,
   (callMethod_dispatch scenCfg (fun _ => Except.ok scenInitial) 5 "RenewMasterKey" [] "invoke"
      (some false) ⟨[], []⟩ scenInitial rfl).2.1 rfl rfl,
   (callMethod_dispatch scenCfg (fun _ => Except.ok scenFinal) 5 "RebuildStoreIndex" [] "invoke"
      (some true) ⟨[], []⟩ scenFinal rfl).2.2 rfl rfl⟩

/-- Response whose `token` is present and non-null but not a string. -/
def numTokenResponse : JSON := .obj [("token", .num 7), ("statusVersion", .num 1)]

/-- C3 counterexample: on the object `\x7btoken: 7, statusVersion: 1\x7d`,
whose `token` and `statusVersion` are both present and non-null, `__hasToken`
does not return true — it raises `TypeError`, because the log message on
line 94 concatenates the non-string token into a string before the log-level
test.  The check is therefore not a pure predicate with no other outcome. -/
theorem hasToken_numToken_counterexample :
    hasToken numTokenResponse = Except.error PyErr.typeError ∧
    hasToken numTokenResponse ≠ Except.ok true :=
  ⟨rfl, fun h => Except.noConfusion h⟩

/-- C3 amended: for every decoded JSON object, `__hasToken` returns false
when the object is missing `token`, has `token` equal to null, or is missing
`statusVersion`; it returns true when `token` and `statusVersion` are both
present and `token` is a (non-null) string; but when `token` is present,
non-null and not a string while `statusVersion` is present, it raises
`TypeError` (from the log-message concatenation) instead of returning. -/
theorem hasToken_amended (fields : List (String × JSON)) :
    (¬ (JSON.obj fields).hasKey "token" = true →
      hasToken (JSON.obj fields) = Except.ok false) ∧
    ((JSON.obj fields).getD "token" = JSON.null →
      hasToken (JSON.obj fields) = Except.ok false) ∧
    (¬ (JSON.obj fields).hasKey "statusVersion" = true →
      hasToken (JSON.obj fields) = Except.ok false) ∧
    (∀ s, (JSON.obj fields).getD "token" = JSON.str s →
      (JSON.obj fields).hasKey "token" = true →
      (JSON.obj fields).hasKey "statusVersion" = true →
      hasToken (JSON.obj fields) = Except.ok true) ∧
    (∀ tok, (JSON.obj fields).getD "token" = tok →
      (∀ s, tok ≠ JSON.str s) → tok ≠ JSON.null →
      (JSON.obj fields).hasKey "token" = true →
      (JSON.obj fields).hasKey "statusVersion" = true →
      hasToken (JSON.obj fields) = Except.error PyErr.typeError) := by
  refine ⟨fun h => ?_, fun h => ?_, fun h => ?_,
    fun s hs htk hsv => ?_, fun tok htok hnstr hnnull htk hsv => ?_⟩
  · have h' : (JSON.obj fields).hasKey "token" = false := by
      simpa using h
    simp [hasToken, h']
  · simp [hasToken, h]
  · have h' : (JSON.obj fields).hasKey "statusVersion" = false := by
      simpa using h
    simp [hasToken, h']
  · simp [hasToken, htk, hsv, hs, strOfConcat]
  · cases tok with
    | null => exact absurd rfl hnnull
    | str s => exact absurd rfl (hnstr s)
    | bool b => simp [hasToken, htk, hsv, htok, strOfConcat]
    | num n => simp [hasToken, htk, hsv, htok, strOfConcat]
    | arr es => simp [hasToken, htk, hsv, htok, strOfConcat]
    | obj fs => simp [hasToken, htk, hsv, htok, strOfConcat]

/-- C3 witness: the amended characterization evaluated on a trackable
response and on an empty object. -/
theorem hasToken_amended_witness :
    hasToken (JSON.obj [("token", .str "T1"), ("statusVersion", .num 1)]) = Except.ok true ∧
    hasToken (JSON.obj []) = Except.ok false :=
  ⟨(hasToken_amended [("token", .str "T1"), ("statusVersion", .num 1)]).2.2.2.1 "T1"
      rfl rfl rfl,
   (hasToken_amended []).1 (by simp [JSON.hasKey])⟩

/-- C4: on every JSON object that fails the token presence check, `GetStatus`
raises `MailStoreNoTokenError` and `CancelAsync` raises
`MailStoreNoTokenError`, and in both cases the trace is unchanged: zero wire
calls are issued and no callback fires. -/
theorem noToken_raises (cfg : Config) (transport : Nat → Except TransportFailure JSON)
    (fuel : Nat) (j : JSON) (w : Option Int) (t : Trace)
    (h : hasToken j = Except.ok false) :
    GetStatus cfg transport j w t = .err (.noToken j) t ∧
    CancelAsync cfg transport fuel j t = .err (.noToken j) t := by
  constructor
  · simp [GetStatus, h]
  · simp [CancelAsync, h]

/-- C4 witness: a synchronous `succeeded` response has no token; both
operations raise on it without touching the network. -/
theorem noToken_raises_witness :
    hasToken (JSON.obj [("statusCode", .str "succeeded")]) = Except.ok false ∧
    GetStatus scenCfg scenTransport (JSON.obj [("statusCode", .str "succeeded")])
        Option.none ⟨[], []⟩ =
      .err (.noToken (JSON.obj [("statusCode", .str "succeeded")])) ⟨[], []⟩ ∧
    CancelAsync scenCfg scenTransport 5 (JSON.obj [("statusCode", .str "succeeded")])
        ⟨[], []⟩ =
      .err (.noToken (JSON.obj [("statusCode", .str "succeeded")])) ⟨[], []⟩ :=
  ⟨rfl,
   (noToken_raises scenCfg scenTransport 5 (JSON.obj [("statusCode", .str "succeeded")])
      Option.none ⟨[], []⟩ rfl).1,
   (noToken_raises scenCfg scenTransport 5 (JSON.obj [("statusCode", .str "succeeded")])
      Option.none ⟨[], []⟩ rfl).2⟩

/-- Transport oracle that fails every wire call with a non-HTTP exception. -/
def failingTransport : Nat → Except TransportFailure JSON :=
  fun _ => Except.error .other

/-- Transport oracle whose first wire call returns the scenario's initial
`running` response and whose later calls fail with HTTP 500. -/
def failAfterFirst : Nat → Except TransportFailure JSON :=
  fun n => if n = 0 then Except.ok scenInitial else Except.error (.httpError 500)

/-- C5: a status refresh that raises any error aborts the poll loop at once
and the error propagates unchanged, with no partial result.  First conjunct:
at any iteration state of the `while` loop (a `running` response with a
string token), when `GetStatus` yields an error, the loop yields exactly
that error and that trace — no cached or substituted Task Response.  Second
conjunct: when the poll-loop driver run by a top-level `__callMethod` yields
an error, the top-level call yields exactly that error. -/
theorem refreshError_propagates :
    (∀ (cfg : Config) (transport : Nat → Except TransportFailure JSON)
      (fuel : Nat) (w : Int) (j : JSON) (s : String) (t : Trace) (e : PyErr) (t' : Trace),
      getItem j "statusCode" = Except.ok (JSON.str "running") →
      getItem j "token" = Except.ok (JSON.str s) →
      GetStatus cfg transport j (some w) t = .err e t' →
      handleTokenLoop cfg transport (fuel + 1) w j t = .err e t') ∧
    (∀ (cfg : Config) (transport : Nat → Except TransportFailure JSON)
      (fuel : Nat) (method : String) (args : List (String × PyVal)) (mode : String)
      (auto : Option Bool) (t : Trace) (response : JSON) (e : PyErr) (t' : Trace),
      transport t.calls.length = Except.ok response →
      hasToken response = Except.ok true →
      auto.getD cfg.autoHandleToken = true →
      handleToken cfg transport fuel response Option.none
        { t with calls := t.calls ++ [⟨method, mode, args⟩] } = .err e t' →
      callMethod cfg transport fuel method args mode auto t = .err e t') := by
  constructor
  · intro cfg transport fuel w j s t e t' hsc htok hgs
    simp [handleTokenLoop, hsc, htok, JSON.eqStr, strOfConcat, hgs]
  · intro cfg transport fuel method args mode auto t response e t' hresp hht ha hrun
    simp [callMethod, hresp, hht, ha, hrun]

/-- C5 witness: a transport failure on the very first refresh propagates out
of the loop, and an HTTP 500 on the refresh of an auto-handled call
propagates out of the top-level call. -/
theorem refreshError_propagates_witness :
    handleTokenLoop scenCfg failingTransport 5 1000 scenInitial ⟨[], []⟩ =
      .err PyErr.baseError ⟨[scenCall "1"], []⟩ ∧
    callMethod scenCfg failAfterFirst 5 "DeleteEmptyFolders" [] "invoke" Option.none
        ⟨[], []⟩ =
      .err (PyErr.httpError 500)
        ⟨[⟨"DeleteEmptyFolders", "invoke", []⟩, scenCall "1"], [scenInitial]⟩ :=
  ⟨refreshError_propagates.1 scenCfg failingTransport 4 1000 scenInitial "T1" ⟨[], []⟩
      PyErr.baseError ⟨[scenCall "1"], []⟩ rfl rfl rfl,
   refreshError_propagates.2 scenCfg failAfterFirst 5 "DeleteEmptyFolders" [] "invoke"
      Option.none ⟨[], []⟩ scenInitial (PyErr.httpError 500)
      ⟨[⟨"DeleteEmptyFolders", "invoke", []⟩, scenCall "1"], [scenInitial]⟩
      rfl rfl rfl rfl⟩

/-- C6: on every trackable Task Response, `GetStatus` is exactly one
`__callMethod` invocation of `get-status` with arguments `token`,
`millisecondsTimeout` and `lastKnownStatusVersion` and an explicit
`autoHandleToken=False`; consequently, whatever decoded response the status
check returns — even one that itself passes the token presence check, and
even when the client default `autoHandleToken` is true — `GetStatus`
performs exactly one remote invocation and returns that decoded response
without entering the poll-loop driver. -/
theorem getStatus_single_step (cfg : Config) (transport : Nat → Except TransportFailure JSON)
    (fuel : Nat) (j : JSON) (wt : Option Int) (t : Trace) (response : JSON) (b : Bool)
    (htk : hasToken j = Except.ok true) :
    GetStatus cfg transport j wt t =
      callMethod cfg transport fuel "get-status"
        [("token", (j.getD "token").toPy),
         ("millisecondsTimeout", .int (effectiveWaitTime wt cfg)),
         ("lastKnownStatusVersion", .str (pyStr (j.getD "statusVersion")))]
        "" (some false) t ∧
    (transport t.calls.length = Except.ok response → hasToken response = Except.ok b →
      GetStatus cfg transport j wt t =
        .ok response
          { t with calls := t.calls ++
              [⟨"get-status", "",
                [("token", (j.getD "token").toPy),
                 ("millisecondsTimeout", .int (effectiveWaitTime wt cfg)),
                 ("lastKnownStatusVersion", .str (pyStr (j.getD "statusVersion")))]⟩] }) := by
  constructor
  · rw [callMethod_autoFalse]
    simp [GetStatus, htk]
  · intro hresp hb
    simp [GetStatus, callMethodNoAuto, htk, hresp, hb]

/-- C6 witness: a `get-status` response that itself carries a token and
statusVersion, under a client whose `autoHandleToken` default is true, is
returned directly after a single wire call. -/
theorem getStatus_single_step_witness :
    scenCfg.autoHandleToken = true ∧
    hasToken scenRefresh = Except.ok true ∧
    GetStatus scenCfg (fun _ => Except.ok scenRefresh) scenInitial Option.none ⟨[], []⟩ =
      .ok scenRefresh ⟨[scenCall "1"], []⟩ :=
  ⟨rfl, rfl,
   (getStatus_single_step scenCfg (fun _ => Except.ok scenRefresh) 5 scenInitial
      Option.none ⟨[], []⟩ scenRefresh true rfl).2 rfl rfl⟩

/-- Trackable response with token `T1` and statusVersion 1, without a
`statusCode`. -/
def bareTrackable : JSON := .obj [("token", .str "T1"), ("statusVersion", .num 1)]

/-- Transport oracle answering every wire call with an empty JSON object. -/
def emptyObjTransport : Nat → Except TransportFailure JSON :=
  fun _ => Except.ok (JSON.obj [])

/-- C7 counterexample: with the client default `waitTime = 1000`, a call
`GetStatus(response, waitTime=0)` — an explicitly supplied per-call value of
0 — issues its status check with `millisecondsTimeout = 1000`, not 0: line
183 reads `waitTime = waitTime if waitTime else self.waitTime`, a Python
truthiness test, so an explicit falsy value falls back to the default. -/
theorem getStatus_waitTime_zero_counterexample :
    GetStatus scenCfg emptyObjTransport bareTrackable (some 0) ⟨[], []⟩ =
      .ok (JSON.obj [])
        ⟨[⟨"get-status", "",
           [("token", .str "T1"), ("millisecondsTimeout", .int 1000),
            ("lastKnownStatusVersion", .str "1")]⟩], []⟩ ∧
    effectiveWaitTime (some 0) scenCfg = scenCfg.waitTime ∧
    effectiveWaitTime (some 0) scenCfg ≠ 0 :=
  ⟨rfl, rfl, by decide⟩

/-- C7 amended: `GetStatus` sends `millisecondsTimeout = effectiveWaitTime`,
where the effective wait time is the explicitly supplied per-call value when
that value is truthy (non-`None` and nonzero); when no per-call value is
supplied — and also when the supplied value is the falsy `0` — it falls back
to the client's configured default `waitTime`. -/
theorem getStatus_waitTime_amended (cfg : Config)
    (transport : Nat → Except TransportFailure JSON) (j : JSON) (wt : Option Int)
    (t : Trace) (htk : hasToken j = Except.ok true) :
    (GetStatus cfg transport j wt t).trace.calls =
      t.calls ++
        [⟨"get-status", "",
          [("token", (j.getD "token").toPy),
           ("millisecondsTimeout", .int (effectiveWaitTime wt cfg)),
           ("lastKnownStatusVersion", .str (pyStr (j.getD "statusVersion")))]⟩] ∧
    (∀ v : Int, wt = some v → v ≠ 0 → effectiveWaitTime wt cfg = v) ∧
    (wt = Option.none ∨ wt = some 0 → effectiveWaitTime wt cfg = cfg.waitTime) := by
  refine ⟨?_, fun v hv hnz => ?_, fun h => ?_⟩
  · have htr : ∀ (m : String) (args : List (String × PyVal)) (mode : String),
        (callMethodNoAuto cfg transport m args mode t).trace =
          { t with calls := t.calls ++ [⟨m, mode, args⟩] } := by
      intro m args mode
      simp only [callMethodNoAuto]
      cases transport t.calls.length with
      | error f => cases f <;> rfl
      | ok r => cases hhr : hasToken r <;> simp [hhr, Res.trace]
    simp only [GetStatus, htk]
    rw [htr]
  · subst hv
    simp [effectiveWaitTime, hnz]
  · rcases h with h | h <;> subst h <;> simp [effectiveWaitTime]

/-- C7 witness: an explicit truthy wait time of 500 is sent as supplied; an
absent one falls back to the default 1000. -/
theorem getStatus_waitTime_amended_witness :
    (GetStatus scenCfg emptyObjTransport bareTrackable (some 500) ⟨[], []⟩).trace.calls =
      [⟨"get-status", "",
        [("token", .str "T1"), ("millisecondsTimeout", .int 500),
         ("lastKnownStatusVersion", .str "1")]⟩] ∧
    effectiveWaitTime (some 500) scenCfg = 500 ∧
    effectiveWaitTime Option.none scenCfg = scenCfg.waitTime :=
  ⟨(getStatus_waitTime_amended scenCfg emptyObjTransport bareTrackable (some 500)
      ⟨[], []⟩ rfl).1,
   (getStatus_waitTime_amended scenCfg emptyObjTransport bareTrackable (some 500)
      ⟨[], []⟩ rfl).2.1 500 rfl (by decide),
   (getStatus_waitTime_amended scenCfg emptyObjTransport bareTrackable Option.none
      ⟨[], []⟩ rfl).2.2 (Or.inl rfl)⟩

/-- Running response already at statusVersion 2. -/
def staleInitial : JSON :=
  .obj [("statusCode", .str "running"), ("token", .str "T1"), ("statusVersion", .num 2)]

/-- Terminal refresh response whose statusVersion is still 2 — not strictly
greater than the previously known version. -/
def staleFinal : JSON :=
  .obj [("statusCode", .str "completed"), ("token", .str "T1"), ("statusVersion", .num 2)]

/-- Transport oracle whose every refresh returns the stale-version terminal
response. -/
def staleTransport : Nat → Except TransportFailure JSON :=
  fun _ => Except.ok staleFinal

/-- C8 counterexample: a status refresh whose `statusVersion` (2) is not
strictly greater than the previously known version (2) is accepted silently:
the handler passes it to the callback and returns it as the terminal result;
no error of any kind is raised (the client has no `ProtocolAnomaly` notion at
all — `__handleToken` never compares status versions). -/
theorem staleVersion_counterexample :
    staleInitial.getD "statusVersion" = staleFinal.getD "statusVersion" ∧
    handleToken scenCfg staleTransport 5 staleInitial Option.none ⟨[], []⟩ =
      .ok staleFinal ⟨[scenCall "2"], [staleInitial, staleFinal]⟩ :=
  ⟨rfl, rfl⟩

/-- C8 amended: the poll loop examines only `statusCode`; a refresh response
whose `statusVersion` is not strictly greater than the previous one is
accepted silently rather than flagged — when the refresh yields a terminal
response, the loop returns it normally (after the callback) regardless of
the version comparison. -/
theorem staleVersion_accepted (cfg : Config)
    (transport : Nat → Except TransportFailure JSON) (fuel : Nat) (w : Int)
    (j r : JSON) (t t' : Trace) (s s' : String) (sc : JSON) (va vb : Int)
    (hsc : getItem j "statusCode" = Except.ok (JSON.str "running"))
    (htok : getItem j "token" = Except.ok (JSON.str s))
    (hgs : GetStatus cfg transport j (some w) t = .ok r t')
    (hrsc : getItem r "statusCode" = Except.ok sc)
    (hterm : sc.eqStr "running" = false)
    (hrtok : getItem r "token" = Except.ok (JSON.str s'))
    (hva : j.getD "statusVersion" = JSON.num va)
    (hvb : r.getD "statusVersion" = JSON.num vb)
    (hmono : vb ≤ va) :
    handleTokenLoop cfg transport (fuel + 1) w j t = .ok r (pushCb cfg r t') := by
  rw [show handleTokenLoop cfg transport (fuel + 1) w j t =
      handleTokenLoop cfg transport fuel w r (pushCb cfg r t') by
    simp [handleTokenLoop, hsc, htok, JSON.eqStr, strOfConcat, hgs]]
  cases fuel <;> simp [handleTokenLoop, hrsc, hterm, hrtok, strOfConcat]

/-- C8 witness: a refresh that leaves the version at 2 (not greater than the
previous 2) is returned as the loop's normal result. -/
theorem staleVersion_accepted_witness :
    handleTokenLoop scenCfg staleTransport 5 1000 staleInitial ⟨[], []⟩ =
      .ok staleFinal ⟨[scenCall "2"], [staleFinal]⟩ :=
  staleVersion_accepted scenCfg staleTransport 4 1000 staleInitial staleFinal
    ⟨[], []⟩ ⟨[scenCall "2"], []⟩ "T1" "T1" (JSON.str "completed") 2 2
    rfl rfl rfl rfl rfl rfl rfl rfl (by decide)

/-- String concatenation with any non-string value raises `TypeError`. -/
theorem strOfConcat_nonstr (tok : JSON) (h : ∀ s, tok ≠ JSON.str s) :
    strOfConcat tok = Except.error PyErr.typeError := by
  cases tok with
  | str s => exact absurd rfl (h s)
  | null => rfl
  | bool b => rfl
  | num n => rfl
  | arr es => rfl
  | obj fs => rfl

/-- C9: every run of the automatic token handler presupposes response shape
beyond the token presence check, regardless of the configured log level
(which is quantified inside `cfg`), because the log-message strings embedding
`jsonValues["token"]` are built before the log-level test inside
`__logprint`.  First conjunct: a response without a `statusCode` key makes
the handler raise `KeyError "statusCode"` (after the initial callback).
Second: a terminal refreshed response without a `token` key makes the loop
raise `KeyError "token"` instead of returning the terminal response.
Third: a terminal response whose `token` is not a string makes the loop
raise `TypeError` instead of returning it.  Fourth: a `running` response
whose `token` is not a string makes the loop raise `TypeError` before
issuing any status refresh — the trace is unchanged. -/
theorem handler_shape_presuppositions :
    (∀ (cfg : Config) (transport : Nat → Except TransportFailure JSON)
      (fuel : Nat) (j : JSON) (wt : Option Int) (t : Trace) (e : PyErr),
      getItem j "statusCode" = Except.error e →
      handleToken cfg transport fuel j wt t = .err e (pushCb cfg j t)) ∧
    (∀ (cfg : Config) (transport : Nat → Except TransportFailure JSON)
      (fuel : Nat) (w : Int) (fields : List (String × JSON)) (t : Trace) (sc : JSON),
      getItem (JSON.obj fields) "statusCode" = Except.ok sc →
      sc.eqStr "running" = false →
      ¬ (JSON.obj fields).hasKey "token" = true →
      handleTokenLoop cfg transport fuel w (JSON.obj fields) t =
        .err (.keyError "token") t) ∧
    (∀ (cfg : Config) (transport : Nat → Except TransportFailure JSON)
      (fuel : Nat) (w : Int) (j : JSON) (t : Trace) (sc tok : JSON),
      getItem j "statusCode" = Except.ok sc →
      sc.eqStr "running" = false →
      getItem j "token" = Except.ok tok →
      (∀ s, tok ≠ JSON.str s) →
      handleTokenLoop cfg transport fuel w j t = .err .typeError t) ∧
    (∀ (cfg : Config) (transport : Nat → Except TransportFailure JSON)
      (fuel : Nat) (w : Int) (j : JSON) (t : Trace) (sc tok : JSON),
      getItem j "statusCode" = Except.ok sc →
      sc.eqStr "running" = true →
      getItem j "token" = Except.ok tok →
      (∀ s, tok ≠ JSON.str s) →
      handleTokenLoop cfg transport fuel w j t = .err .typeError t) := by
  refine ⟨?_, ?_, ?_, ?_⟩
  · intro cfg transport fuel j wt t e hsc
    cases fuel <;> simp [handleToken, handleTokenLoop, hsc]
  · intro cfg transport fuel w fields t sc hsc hterm htok
    have hfind : fields.find? (fun f => f.1 == "token") = Option.none := by
      rw [List.find?_eq_none]
      intro a ha hpa
      exact htok (by simp only [JSON.hasKey, List.any_eq_true]; exact ⟨a, ha, hpa⟩)
    have hgi : getItem (JSON.obj fields) "token" = Except.error (.keyError "token") := by
      simp [getItem, hfind]
    cases fuel <;>
      simp [handleTokenLoop, hsc, hterm, hgi]
  · intro cfg transport fuel w j t sc tok hsc hterm htok hnstr
    cases fuel <;>
      simp [handleTokenLoop, hsc, hterm, htok, strOfConcat_nonstr tok hnstr]
  · intro cfg transport fuel w j t sc tok hsc hrun htok hnstr
    cases fuel <;>
      simp [handleTokenLoop, hsc, hrun, htok, strOfConcat_nonstr tok hnstr]

/-- C9 witness: concrete malformed responses — one lacking `statusCode`, a
terminal one lacking `token`, a terminal one with a numeric token, and a
running one with a numeric token — each drive the handler into the stated
exception. -/
theorem handler_shape_presuppositions_witness :
    handleToken scenCfg scenTransport 5 bareTrackable Option.none ⟨[], []⟩ =
      .err (.keyError "statusCode") ⟨[], [bareTrackable]⟩ ∧
    handleTokenLoop scenCfg scenTransport 5 1000
        (JSON.obj [("statusCode", .str "completed")]) ⟨[], []⟩ =
      .err (.keyError "token") ⟨[], []⟩ ∧
    handleTokenLoop scenCfg scenTransport 5 1000
        (JSON.obj [("statusCode", .str "completed"), ("token", .num 5)]) ⟨[], []⟩ =
      .err .typeError ⟨[], []⟩ ∧
    handleTokenLoop scenCfg scenTransport 5 1000
        (JSON.obj [("statusCode", .str "running"), ("token", .num 5)]) ⟨[], []⟩ =
      .err .typeError ⟨[], []⟩ :=
  ⟨handler_shape_presuppositions.1 scenCfg scenTransport 5 bareTrackable Option.none
      ⟨[], []⟩ (.keyError "statusCode") rfl,
   handler_shape_presuppositions.2.1 scenCfg scenTransport 5 1000
      [("statusCode", .str "completed")] ⟨[], []⟩ (JSON.str "completed") rfl rfl
      (by simp [JSON.hasKey]),
   handler_shape_presuppositions.2.2.1 scenCfg scenTransport 5 1000
      (JSON.obj [("statusCode", .str "completed"), ("token", .num 5)]) ⟨[], []⟩
      (JSON.str "completed") (JSON.num 5) rfl rfl rfl
      (fun s h => JSON.noConfusion h),
   handler_shape_presuppositions.2.2.2 scenCfg scenTransport 5 1000
      (JSON.obj [("statusCode", .str "running"), ("token", .num 5)]) ⟨[], []⟩
      (JSON.str "running") (JSON.num 5) rfl rfl rfl
      (fun s h => JSON.noConfusion h)⟩

/-- Computation of the key-comprehension form of line 132 into a direct
filter of the dictionary's entries, for dictionaries (no duplicate keys). -/
theorem marshalArguments_eq_filter (args : List (String × PyVal))
    (hnd : (args.map (fun kv => kv.1)).Nodup) :
    marshalArguments args = args.filter (fun kv => kv.2.truthy) := by
  induction args with
  | nil => rfl
  | cons kv rest ih =>
    obtain ⟨k, v⟩ := kv
    simp only [List.map_cons, List.nodup_cons] at hnd
    obtain ⟨hk, hrest⟩ := hnd
    have hself : dictGet ((k, v) :: rest) k = v := by
      simp [dictGet]
    have htail : (rest.map (fun kv => kv.1)).filterMap
        (fun k' => if (dictGet ((k, v) :: rest) k').truthy
          then some (k', dictGet ((k, v) :: rest) k') else Option.none) =
        marshalArguments rest := by
      unfold marshalArguments
      apply List.filterMap_congr
      intro k' hk'
      have hne : k' ≠ k := fun h => hk (h ▸ hk')
      have hb : ((k : String) == k') = false := by
        rw [beq_eq_false_iff_ne]
        exact fun h => hne h.symm
      have hg : dictGet ((k, v) :: rest) k' = dictGet rest k' := by
        simp [dictGet, List.find?, hb]
      rw [hg]
    unfold marshalArguments
    rw [List.map_cons, List.filterMap_cons]
    rw [show ∀ l f, List.filterMap f l = l.filterMap f from fun _ _ => rfl] at htail
    cases hv : v.truthy <;>
      simp only [hself, hv, if_true, if_false, List.filter_cons] <;>
      rw [htail, ih hrest] <;> simp [hv]

/-- C10: for every argument dictionary (in both the server and the spe
client, whose marshalling lines are identical), the form-encoded POST body
keeps exactly the arguments whose values are truthy: every falsy value —
`None`, `False`, `0`, the empty string, an empty collection — is omitted
from the transmission, characterized exactly by `PyVal.truthy`. -/
theorem marshalling_omits_falsy (args : List (String × PyVal))
    (hnd : (args.map (fun kv => kv.1)).Nodup) :
    marshalArguments args = args.filter (fun kv => kv.2.truthy) ∧
    speMarshalArguments args = args.filter (fun kv => kv.2.truthy) ∧
    (∀ k v, (k, v) ∈ marshalArguments args ↔ ((k, v) ∈ args ∧ v.truthy = true)) ∧
    (∀ v : PyVal, v.truthy = false ↔
      (v = .none ∨ v = .bool false ∨ v = .int 0 ∨ v = .str "" ∨
       v = .list [] ∨ v = .dict [])) := by
  have hmain := marshalArguments_eq_filter args hnd
  refine ⟨hmain, hmain, fun k v => ?_, fun v => ?_⟩
  · rw [hmain, List.mem_filter]
  · cases v with
    | none => simp [PyVal.truthy]
    | bool b => cases b <;> simp [PyVal.truthy]
    | int n => simp [PyVal.truthy]
    | str s =>
      simp only [PyVal.truthy, Bool.not_eq_false', String.isEmpty_iff]
      constructor
      · intro h
        exact Or.inr (Or.inr (Or.inr (Or.inl (by simp [h]))))
      · rintro (h | h | h | h | h | h) <;> simp_all
    | list xs => cases xs <;> simp [PyVal.truthy]
    | dict fs => cases fs <;> simp [PyVal.truthy]

/-- C10 witness: in `\x7bmaxLevels: 0, raw: False, name: "a"\x7d` the falsy
`maxLevels` and `raw` are omitted and only `name` is transmitted, in both
clients. -/
theorem marshalling_omits_falsy_witness :
    marshalArguments [("maxLevels", .int 0), ("raw", .bool false), ("name", .str "a")] =
      [("name", PyVal.str "a")] ∧
    speMarshalArguments [("maxLevels", .int 0), ("raw", .bool false), ("name", .str "a")] =
      [("name", PyVal.str "a")] :=
  ⟨(marshalling_omits_falsy
      [("maxLevels", .int 0), ("raw", .bool false), ("name", .str "a")]
      (by simp)).1.trans rfl,
   (marshalling_omits_falsy
      [("maxLevels", .int 0), ("raw", .bool false), ("name", .str "a")]
      (by simp)).2.1.trans rfl⟩

end Mailstore
